import Mathlib

/-!
Shallow embedding of the AI-CoDirector front end.

The repository contains two parallel implementations of each feature flow:
the routed pages (src/pages/ScriptTransformer.jsx, src/pages/VideoAnalyzer.jsx)
and a single-file variant (ScriptWriter, EmotionDetector, FileDrop).
Each React component is embedded as a state record plus a step function
from UI/network events to a new state and a list of emitted effects
(network calls, object-URL creations and revocations).  React specifics
are translated as follows: a click on a button with a true `disabled`
attribute is a no-op; a `useEffect` keyed on a state value runs its
previous cleanup and then its body whenever that value changes between
renders, and runs the final cleanup on unmount; object URLs are modelled
as fresh natural numbers drawn from a counter.
-/

/-- A DOM `File` value as the handlers observe it: name, declared MIME
type and size in bytes. -/
structure JSFile where
  name : String
  type : String
  size : Nat
deriving DecidableEq, Repr

/-- JavaScript `a || b` for an optional string `a` (absent or empty means
falsy) against a string default. -/
def jsOrS : Option String → String → String
  | some s, d => if s = "" then d else s
  | none, d => d

/-- JavaScript `a || b` on two strings (empty string is falsy). -/
def jsOrSS (a b : String) : String := if a = "" then b else a

/-- JavaScript `a || b` on two optional strings, as used for
`data.structured_script || data.final_script`. -/
def jsOrO : Option String → Option String → Option String
  | some s, b => if s = "" then b else some s
  | none, b => b

/-- Truthiness of an optional string (null/undefined and `""` are falsy). -/
def truthyO : Option String → Bool
  | some s => s != ""
  | none => false

/-- JS whitespace as relevant to `String.prototype.trim` here: space,
tab, newline, carriage return. -/
def isJsWs (c : Char) : Bool := c = ' ' || c = '\t' || c = '\n' || c = '\r'

/-- JavaScript `s.trim()`: strip whitespace from both ends.  Written
over the character list so that it reduces in the kernel. -/
def jsTrim (s : String) : String :=
  String.mk (((s.data.dropWhile isJsWs).reverse.dropWhile isJsWs).reverse)

/-- JavaScript `s.startsWith(pre)`: prefix test on the characters. -/
def jsStartsWith (s pre : String) : Bool := pre.data.isPrefixOf s.data

/-- `e?.message || String(e)` for a caught `Error` whose message is `m`:
the message itself when non-empty, otherwise the generic rendering. -/
def jsErrMsg (m : String) : String := if m = "" then "Error" else m

/-- Base URL of the script-generation service (SCRIPT_API in the
single-file variant; SCRIPT_API_URL_TEXT is this plus the text path). -/
def SCRIPT_API : String := "https://Arjun9036-script-writer-api.hf.space"

/-- URL of the emotion-analysis service (EMOTION_API / VIDEO_API_URL;
both files hold the same string). -/
def EMOTION_API : String := "https://arjun9036-multimodal-emotion-backend.hf.space/predict"

/-- A request issued by one of the submit handlers.  The constructor
records exactly the data placed in the body: the JSON text request
carries `original_script` and `genre`; the document request is a
multipart form holding the file and `genre`; the emotion request is a
multipart form holding the video file and `user_emotion`. -/
inductive Request where
  | scriptJson (original_script genre : String)
  | scriptPdf (file : JSFile) (genre : String)
  | emotionMultipart (video : JSFile) (user_emotion : String)
deriving DecidableEq, Repr

/-- The endpoint each request is posted to, as written in the source. -/
def Request.endpoint : Request → String
  | .scriptJson _ _ => SCRIPT_API ++ "/generate-script/"
  | .scriptPdf _ _ => SCRIPT_API ++ "/generate-script-from-pdf/"
  | .emotionMultipart _ _ => EMOTION_API

/-- The `genre` field of a request body, when the body has one. -/
def Request.genreField : Request → Option String
  | .scriptJson _ g => some g
  | .scriptPdf _ g => some g
  | .emotionMultipart _ _ => none

/-- Observable side effects of a handler: a network call, creation of an
object URL (`URL.createObjectURL`), or its revocation
(`URL.revokeObjectURL`). -/
inductive Eff where
  | net (r : Request)
  | createURL (u : Nat)
  | revokeURL (u : Nat)
deriving DecidableEq, Repr

/-- Cleanup of the effect holding an object URL: revoke the held URL if
one is live, otherwise nothing.  This is both the cleanup React runs
when the keyed value changes and the final cleanup on unmount. -/
def cleanupEffs (src : Option Nat) : List Eff :=
  match src with | some u => [.revokeURL u] | none => []

/-- Parsed JSON body of a script-generation response.  `detail` is the
error field read on non-success status in the single-file variant. -/
structure ScriptJson where
  structured_script : Option String := none
  final_script : Option String := none
  detail : Option String := none
deriving DecidableEq, Repr

/-- Parsed JSON body of an emotion-analysis response. -/
structure EmotionJson where
  predicted_emotion : Option String := none
  confidence : Option Nat := none
  matched : Option Bool := none
  recommendations : Option String := none
  detail : Option String := none
deriving DecidableEq, Repr

/-- An HTTP response as the handlers observe it: status success flag and
the result of `resp.json()`.  `json = none` means the body was not valid
JSON, in which case `parseMsg` is the message of the exception
`resp.json()` throws. -/
structure HttpResp (J : Type) where
  ok : Bool
  json : Option J
  parseMsg : String := ""
deriving DecidableEq, Repr

/-- Run a step function over a list of events from a start state,
collecting the emitted effects in order. -/
def runStep {σ ε : Type} (step : σ → ε → σ × List Eff) : σ → List ε → σ × List Eff
  | s, [] => (s, [])
  | s, e :: evs =>
    let q := step s e
    let r := runStep step q.1 evs
    (r.1, q.2 ++ r.2)

/-- State of the ScriptTransformer page: the five `useState` hooks plus a
ghost counter of requests currently in flight. -/
structure STState where
  loading : Bool
  result : Option String
  genre : String
  text : String
  error : String
  inFlight : Nat
deriving DecidableEq, Repr

/-- Initial ScriptTransformer state (`useState` initial values). -/
def initST : STState := ⟨false, none, "", "", "", 0⟩

/-- Events a ScriptTransformer instance can receive. -/
inductive STEvent where
  | setGenre (g : String)
  | setText (t : String)
  | submitClick
  | response (r : HttpResp ScriptJson)
deriving Repr

/-- The fixed message ScriptTransformer shows on any request failure. -/
def cSTfail : String := "Failed to connect to the backend. Please check if the API is active."

/-- One step of the ScriptTransformer page.  The generate button carries
`disabled=loading or not text`, so a click while pending or with empty
text is a no-op; the handler additionally returns early when the text is
all whitespace.  On submit the genre sent is `genre.trim() || "Screenplay"`.
On a response, a non-success status or an unparseable body lands in the
catch block, which sets the fixed failure message; on success the stored
result is `data.structured_script || data.final_script`. -/
def STstep (s : STState) : STEvent → STState × List Eff
  | .setGenre g => ({ s with genre := g }, [])
  | .setText t => ({ s with text := t }, [])
  | .submitClick =>
    if s.loading || s.text == "" then (s, [])
    else if jsTrim s.text == "" then (s, [])
    else
      ({ s with loading := true, error := "", result := none, inFlight := s.inFlight + 1 },
       [.net (.scriptJson s.text (jsOrSS (jsTrim s.genre) "Screenplay"))])
  | .response r =>
    if s.inFlight == 0 then (s, [])
    else if r.ok then
      match r.json with
      | some d =>
        ({ s with loading := false, inFlight := s.inFlight - 1,
                  result := jsOrO d.structured_script d.final_script }, [])
      | none =>
        ({ s with loading := false, inFlight := s.inFlight - 1, error := cSTfail }, [])
    else ({ s with loading := false, inFlight := s.inFlight - 1, error := cSTfail }, [])

/-- The output panel of ScriptTransformer: spinner text while loading,
then the result when truthy, otherwise the empty-state placeholder. -/
def renderSTOutput (s : STState) : String :=
  if s.loading then "AI is rewriting your scene..."
  else if truthyO s.result then s.result.getD ""
  else "Generated script will appear here"

/-- Whether ScriptTransformer currently shows a result payload. -/
def STshowsResult (s : STState) : Bool := !s.loading && truthyO s.result

/-- Whether ScriptTransformer currently shows an error message. -/
def STshowsError (s : STState) : Bool := s.error != ""

/-- State of the VideoAnalyzer page: the six `useState` hooks, a fresh
object-URL counter, and the in-flight ghost counter.  `preview` is the
object URL held for the selected video (null when none). -/
structure VAState where
  file : Option JSFile
  preview : Option Nat
  nextId : Nat
  loading : Bool
  result : Option EmotionJson
  intendedEmotion : String
  error : String
  inFlight : Nat
deriving DecidableEq, Repr

/-- Initial VideoAnalyzer state. -/
def initVA : VAState := ⟨none, none, 0, false, none, "", "", 0⟩

/-- Events a VideoAnalyzer instance can receive.  `clearClick` is the X
button over the preview. -/
inductive VAEvent where
  | fileChange (f : Option JSFile)
  | setEmotion (e : String)
  | clearClick
  | submitClick
  | response (r : HttpResp EmotionJson)
deriving Repr

/-- The fixed message VideoAnalyzer shows on any request failure. -/
def cVAfail : String :=
  "Failed to analyze video. Ensure the file isn\x27t too large and the backend is active."

/-- One step of the VideoAnalyzer page.  `handleFileChange` performs no
type or size validation: any selected file replaces the previous one, a
fresh preview URL is created in the handler, and the `useEffect` cleanup
for the old preview value then revokes the old URL.  The analyze button
exists only while a preview is shown and carries `disabled=loading`;
its handler checks only that a file is present.  On failure the catch
block installs the fixed failure message (the body text that was read is
only used for the thrown error, which the catch discards). -/
def VAstep (s : VAState) : VAEvent → VAState × List Eff
  | .fileChange none => (s, [])
  | .fileChange (some f) =>
    ({ s with file := some f, preview := some s.nextId, nextId := s.nextId + 1,
              result := none, error := "" },
     [.createURL s.nextId] ++ cleanupEffs s.preview)
  | .setEmotion e => ({ s with intendedEmotion := e }, [])
  | .clearClick =>
    ({ s with file := none, preview := none, result := none }, cleanupEffs s.preview)
  | .submitClick =>
    if s.preview.isNone then (s, [])
    else if s.loading then (s, [])
    else
      match s.file with
      | none => ({ s with error := "Please select a file first." }, [])
      | some f =>
        ({ s with loading := true, error := "", result := none, inFlight := s.inFlight + 1 },
         [.net (.emotionMultipart f s.intendedEmotion)])
  | .response r =>
    if s.inFlight == 0 then (s, [])
    else if r.ok then
      match r.json with
      | some d =>
        ({ s with loading := false, inFlight := s.inFlight - 1, result := some d }, [])
      | none =>
        ({ s with loading := false, inFlight := s.inFlight - 1, error := cVAfail }, [])
    else ({ s with loading := false, inFlight := s.inFlight - 1, error := cVAfail }, [])

/-- Whether VideoAnalyzer currently shows the results section
(`result && !loading`). -/
def VAshowsResult (s : VAState) : Bool := s.result.isSome && !s.loading

/-- Whether VideoAnalyzer currently shows an error message. -/
def VAshowsError (s : VAState) : Bool := s.error != ""

/-- State of the ScriptWriter component of the single-file variant. -/
structure SWState where
  genre : String
  text : String
  pdf : Option JSFile
  loading : Bool
  out : Option ScriptJson
  err : String
  inFlight : Nat
deriving DecidableEq, Repr

/-- Initial ScriptWriter state; the genre select starts at Drama. -/
def initSW : SWState := ⟨"Drama", "", none, false, none, "", 0⟩

/-- Events a ScriptWriter instance can receive.  `pdfSelected` is the
FileDrop callback (null when the chooser yields no file). -/
inductive SWEvent where
  | setGenre (g : String)
  | setText (t : String)
  | pdfSelected (f : Option JSFile)
  | submitClick
  | response (r : HttpResp ScriptJson)
  | resetClick
deriving Repr

/-- One step of the ScriptWriter component.  The generate button carries
`disabled=loading`.  The handler first clears the error and the previous
output, then requires a PDF or non-blank text; with a PDF it posts the
multipart document request (file plus genre), otherwise the JSON text
request.  The response body is parsed before the status check, so an
unparseable body surfaces the parse exception message; a non-success
status surfaces `data.detail || "Server error"`.  Reset clears text,
PDF, output and error, leaving the genre untouched. -/
def SWstep (s : SWState) : SWEvent → SWState × List Eff
  | .setGenre g => ({ s with genre := g }, [])
  | .setText t => ({ s with text := t }, [])
  | .pdfSelected f => ({ s with pdf := f }, [])
  | .submitClick =>
    if s.loading then (s, [])
    else
      if s.pdf.isNone && jsTrim s.text == "" then
        ({ s with err := "Please paste script text or upload a PDF.", out := none }, [])
      else
        match s.pdf with
        | some f =>
          ({ s with err := "", out := none, loading := true, inFlight := s.inFlight + 1 },
           [.net (.scriptPdf f s.genre)])
        | none =>
          ({ s with err := "", out := none, loading := true, inFlight := s.inFlight + 1 },
           [.net (.scriptJson s.text s.genre)])
  | .response r =>
    if s.inFlight == 0 then (s, [])
    else
      match r.json with
      | none =>
        ({ s with loading := false, inFlight := s.inFlight - 1,
                  err := jsErrMsg r.parseMsg }, [])
      | some d =>
        if r.ok then
          ({ s with loading := false, inFlight := s.inFlight - 1, out := some d }, [])
        else
          ({ s with loading := false, inFlight := s.inFlight - 1,
                    err := jsErrMsg (jsOrS d.detail "Server error") }, [])
  | .resetClick => ({ s with text := "", pdf := none, out := none, err := "" }, [])

/-- Stand-in for `JSON.stringify(out, null, 2)` on a script payload:
an executable rendering that serialises exactly the present fields.
The claims depend only on this being the raw-dump branch, never on the
exact text. -/
def stringifyScript (d : ScriptJson) : String :=
  "\x7b" ++ String.intercalate ", "
    ((match d.structured_script with
      | some v => ["\"structured_script\": \"" ++ v ++ "\""]
      | none => []) ++
     (match d.final_script with
      | some v => ["\"final_script\": \"" ++ v ++ "\""]
      | none => []) ++
     (match d.detail with
      | some v => ["\"detail\": \"" ++ v ++ "\""]
      | none => [])) ++ "\x7d"

/-- The teleprompter projection of ScriptWriter:
`out.structured_script || out.final_script || JSON.stringify(out, null, 2)`
when an output is present, otherwise the placeholder line. -/
def renderScript (out : Option ScriptJson) : String :=
  match out with
  | some d => jsOrS d.structured_script (jsOrS d.final_script (stringifyScript d))
  | none => "Your generated script will appear here — formatted for reading."

/-- State of the EmotionDetector component of the single-file variant.
`src` is the object URL held by the preview effect (none when the
`src` state is the empty string). -/
structure EDState where
  file : Option JSFile
  src : Option Nat
  nextId : Nat
  emotion : String
  result : Option EmotionJson
  error : String
  loading : Bool
  inFlight : Nat
deriving DecidableEq, Repr

/-- Initial EmotionDetector state. -/
def initED : EDState := ⟨none, none, 0, "", none, "", false, 0⟩

/-- Events an EmotionDetector instance can receive.  `fileSelected` is
the FileDrop callback feeding `onFileSelected`. -/
inductive EDEvent where
  | fileSelected (f : Option JSFile)
  | setEmotion (e : String)
  | submitClick
  | response (r : HttpResp EmotionJson)
  | clearClick
deriving Repr

/-- One step of the EmotionDetector component.  `onFileSelected` first
clears error and result, then rejects a file whose MIME type does not
start with `video/` or whose size exceeds 50 MiB, leaving the selection
untouched; an accepted file replaces the selection, and the `useEffect`
keyed on `file` revokes the previous object URL in its cleanup before
creating the new one (every accepted selection is a fresh `File` object,
so the dependency always changes).  The analyze button carries
`disabled=loading`; its handler requires a file and a non-blank emotion.
The response body is parsed before the status check, exactly as in
ScriptWriter.  Clear resets file, src, emotion, result and error; the
file effect cleanup revokes the held URL when a file was present. -/
def EDstep (s : EDState) : EDEvent → EDState × List Eff
  | .fileSelected none =>
    match s.file with
    | some _ =>
      ({ s with error := "", result := none, file := none, src := none },
       cleanupEffs s.src)
    | none => ({ s with error := "", result := none, file := none }, [])
  | .fileSelected (some f) =>
    if !(jsStartsWith f.type "video/") then
      ({ s with error := "Please upload a valid video file", result := none }, [])
    else if 50 * 1024 * 1024 < f.size then
      ({ s with error := "File too large (50MB max)", result := none }, [])
    else
      ({ s with error := "", result := none, file := some f, src := some s.nextId,
                nextId := s.nextId + 1 },
       cleanupEffs s.src ++ [.createURL s.nextId])
  | .setEmotion e => ({ s with emotion := e }, [])
  | .submitClick =>
    if s.loading then (s, [])
    else
      match s.file with
      | none => ({ s with error := "Upload video and enter intended emotion" }, [])
      | some f =>
        if jsTrim s.emotion == "" then
          ({ s with error := "Upload video and enter intended emotion" }, [])
        else
          ({ s with loading := true, error := "", result := none,
                    inFlight := s.inFlight + 1 },
           [.net (.emotionMultipart f s.emotion)])
  | .response r =>
    if s.inFlight == 0 then (s, [])
    else
      match r.json with
      | none =>
        ({ s with loading := false, inFlight := s.inFlight - 1,
                  error := jsErrMsg r.parseMsg }, [])
      | some d =>
        if r.ok then
          ({ s with loading := false, inFlight := s.inFlight - 1, result := some d }, [])
        else
          ({ s with loading := false, inFlight := s.inFlight - 1,
                    error := jsErrMsg (jsOrS d.detail "Server error") }, [])
  | .clearClick =>
    match s.file with
    | some _ =>
      ({ s with file := none, src := none, emotion := "", result := none, error := "" },
       cleanupEffs s.src)
    | none =>
      ({ s with file := none, src := none, emotion := "", result := none, error := "" }, [])

/-- Whether EmotionDetector currently shows its result block. -/
def EDshowsResult (s : EDState) : Bool := s.result.isSome

/-- Whether EmotionDetector currently shows an error message. -/
def EDshowsError (s : EDState) : Bool := s.error != ""

/-- Effects of unmounting an EmotionDetector: the final cleanup of the
`file` effect revokes the held object URL, if any. -/
def EDunmountEffs (s : EDState) : List Eff := cleanupEffs s.src

/-- Effects of unmounting a VideoAnalyzer: the final cleanup of the
`preview` effect revokes the held object URL, if any. -/
def VAunmountEffs (s : VAState) : List Eff := cleanupEffs s.preview

/-- Full effect trace of an EmotionDetector lifetime: run the events
from the initial state, then unmount. -/
def EDfullTrace (evs : List EDEvent) : List Eff :=
  let r := runStep EDstep initED evs
  r.2 ++ EDunmountEffs r.1

/-- Full effect trace of a VideoAnalyzer lifetime. -/
def VAfullTrace (evs : List VAEvent) : List Eff :=
  let r := runStep VAstep initVA evs
  r.2 ++ VAunmountEffs r.1

/-- States of a component reachable from its initial state. -/
def ReachST (s : STState) : Prop := ∃ evs, (runStep STstep initST evs).1 = s

/-- Reachable VideoAnalyzer states. -/
def ReachVA (s : VAState) : Prop := ∃ evs, (runStep VAstep initVA evs).1 = s

/-- Reachable ScriptWriter states. -/
def ReachSW (s : SWState) : Prop := ∃ evs, (runStep SWstep initSW evs).1 = s

/-- Reachable EmotionDetector states. -/
def ReachED (s : EDState) : Prop := ∃ evs, (runStep EDstep initED evs).1 = s

/-- Number of creations of URL `u` in a trace. -/
def urlCreates (tr : List Eff) (u : Nat) : Nat := tr.count (Eff.createURL u)

/-- Number of revocations of URL `u` in a trace. -/
def urlRevokes (tr : List Eff) (u : Nat) : Nat := tr.count (Eff.revokeURL u)

lemma countEff_singleton (a b : Eff) : [b].count a = if b = a then 1 else 0 := by
  simp [List.count_cons]

/-- Invariant tying a live preview handle and the fresh-URL counter to
the effect trace emitted so far: every URL created was revoked exactly
once except the live one, no URL is created twice, and URLs at or above
the counter are unused. -/
def PrevInv (src : Option Nat) (nid : Nat) (tr : List Eff) : Prop :=
  (∀ u, urlCreates tr u = urlRevokes tr u + (if src = some u then 1 else 0)) ∧
  (∀ u, urlCreates tr u ≤ 1) ∧
  (∀ u, nid ≤ u → urlCreates tr u = 0) ∧
  (∀ u, src = some u → u < nid)

lemma prevInv_nil : PrevInv none 0 [] := by
  refine ⟨?_, ?_, ?_, ?_⟩ <;> intro u <;> simp [urlCreates, urlRevokes]

lemma prevInv_noop (src : Option Nat) (nid : Nat) (tr effs : List Eff)
    (h : PrevInv src nid tr)
    (hc : ∀ u, effs.count (Eff.createURL u) = 0)
    (hr : ∀ u, effs.count (Eff.revokeURL u) = 0) :
    PrevInv src nid (tr ++ effs) := by
  obtain ⟨h1, h2, h3, h4⟩ := h
  refine ⟨?_, ?_, ?_, h4⟩
  · intro u
    have := h1 u
    simp only [urlCreates, urlRevokes, List.count_append, hc, hr] at *
    omega
  · intro u
    have := h2 u
    simp only [urlCreates, List.count_append, hc] at *
    omega
  · intro u hu
    have := h3 u hu
    simp only [urlCreates, List.count_append, hc] at *
    omega

lemma prevInv_select (src : Option Nat) (nid : Nat) (tr effs : List Eff)
    (h : PrevInv src nid tr)
    (hc : ∀ u, effs.count (Eff.createURL u) = if u = nid then 1 else 0)
    (hr : ∀ u, effs.count (Eff.revokeURL u) = if src = some u then 1 else 0) :
    PrevInv (some nid) (nid + 1) (tr ++ effs) := by
  obtain ⟨h1, h2, h3, h4⟩ := h
  have hcr0 : urlCreates tr nid = 0 := h3 nid (le_refl nid)
  have hsrcnid : src ≠ some nid := by
    intro hs
    have := h4 nid hs
    omega
  refine ⟨?_, ?_, ?_, ?_⟩
  · intro u
    have e1 := h1 u
    simp only [urlCreates, urlRevokes] at e1 hcr0
    simp only [urlCreates, urlRevokes, List.count_append, hc, hr]
    by_cases hu : u = nid
    · subst hu
      have g1 : (if u = u then (1 : Nat) else 0) = 1 := if_pos rfl
      have g2 : (if src = some u then (1 : Nat) else 0) = 0 := if_neg hsrcnid
      have g3 : (if (some u : Option Nat) = some u then (1 : Nat) else 0) = 1 := if_pos rfl
      rw [g1, g2, g3]
      rw [g2] at e1
      omega
    · have g1 : (if u = nid then (1 : Nat) else 0) = 0 := if_neg hu
      have g3 : (if (some nid : Option Nat) = some u then (1 : Nat) else 0) = 0 :=
        if_neg (by simp [Ne.symm hu])
      rw [g1, g3]
      omega
  · intro u
    have e2 := h2 u
    simp only [urlCreates] at e2 hcr0
    simp only [urlCreates, List.count_append, hc]
    by_cases hu : u = nid
    · subst hu
      rw [if_pos rfl]
      omega
    · rw [if_neg hu]
      omega
  · intro u hu
    have e3 : urlCreates tr u = 0 := h3 u (by omega)
    have hu' : ¬ u = nid := by omega
    simp only [urlCreates] at e3
    simp only [urlCreates, List.count_append, hc]
    rw [if_neg hu']
    omega
  · intro u hu
    have : nid = u := by injection hu
    omega

lemma prevInv_clear (src : Option Nat) (nid : Nat) (tr effs : List Eff)
    (h : PrevInv src nid tr)
    (hc : ∀ u, effs.count (Eff.createURL u) = 0)
    (hr : ∀ u, effs.count (Eff.revokeURL u) = if src = some u then 1 else 0) :
    PrevInv none nid (tr ++ effs) := by
  obtain ⟨h1, h2, h3, h4⟩ := h
  refine ⟨?_, ?_, ?_, ?_⟩
  · intro u
    have e1 := h1 u
    simp only [urlCreates, urlRevokes, List.count_append, hc, hr] at *
    have : (none : Option Nat) = some u ↔ False := by simp
    simp only [this, if_false]
    by_cases hs : src = some u
    · simp only [hs, if_pos rfl] at e1 ⊢
      omega
    · simp only [hs, if_false] at e1 ⊢
      omega
  · intro u
    have := h2 u
    simp only [urlCreates, List.count_append, hc] at *
    omega
  · intro u hu
    have := h3 u hu
    simp only [urlCreates, List.count_append, hc] at *
    omega
  · intro u hu
    simp at hu

/-- After appending the unmount cleanup, every URL created in the trace
has exactly one matching revocation, and none was created twice. -/
lemma prevInv_unmount (src : Option Nat) (nid : Nat) (tr : List Eff)
    (h : PrevInv src nid tr) :
    ∀ u, urlCreates (tr ++ cleanupEffs src) u = urlRevokes (tr ++ cleanupEffs src) u
       ∧ urlCreates (tr ++ cleanupEffs src) u ≤ 1 := by
  obtain ⟨h1, h2, h3, h4⟩ := h
  intro u
  have e2 := h2 u
  simp only [urlCreates] at e2
  cases src with
  | none =>
    have e1 := h1 u
    have gn : (if (none : Option Nat) = some u then (1 : Nat) else 0) = 0 :=
      if_neg (by simp)
    simp only [urlCreates, urlRevokes] at e1
    rw [gn] at e1
    simp only [urlCreates, urlRevokes, cleanupEffs, List.count_append, List.count_nil]
    omega
  | some v =>
    have e1 := h1 u
    simp only [urlCreates, urlRevokes] at e1
    simp only [urlCreates, urlRevokes, cleanupEffs, List.count_append, countEff_singleton]
    have gc : (if Eff.revokeURL v = Eff.createURL u then (1 : Nat) else 0) = 0 :=
      if_neg (by simp)
    rw [gc]
    by_cases hv : v = u
    · subst hv
      have gr : (if Eff.revokeURL v = Eff.revokeURL v then (1 : Nat) else 0) = 1 := if_pos rfl
      have gs : (if (some v : Option Nat) = some v then (1 : Nat) else 0) = 1 := if_pos rfl
      rw [gs] at e1
      rw [gr]
      omega
    · have gr : (if Eff.revokeURL v = Eff.revokeURL u then (1 : Nat) else 0) = 0 :=
        if_neg (by simp [hv])
      have gs : (if (some v : Option Nat) = some u then (1 : Nat) else 0) = 0 :=
        if_neg (by simp [hv])
      rw [gs] at e1
      rw [gr]
      omega

lemma cleanupEffs_createCount (src : Option Nat) (u : Nat) :
    (cleanupEffs src).count (Eff.createURL u) = 0 := by
  cases src <;> simp [cleanupEffs, countEff_singleton]

lemma cleanupEffs_revokeCount (src : Option Nat) (u : Nat) :
    (cleanupEffs src).count (Eff.revokeURL u) = if src = some u then 1 else 0 := by
  cases src with
  | none => simp [cleanupEffs]
  | some v =>
    simp only [cleanupEffs, countEff_singleton]
    by_cases hv : v = u
    · simp [hv]
    · simp [hv]

lemma net_createCount (r : Request) (u : Nat) :
    [Eff.net r].count (Eff.createURL u) = 0 := by
  simp [countEff_singleton]

lemma net_revokeCount (r : Request) (u : Nat) :
    [Eff.net r].count (Eff.revokeURL u) = 0 := by
  simp [countEff_singleton]

lemma selectEffs_createCount (src : Option Nat) (nid u : Nat) :
    (cleanupEffs src ++ [Eff.createURL nid]).count (Eff.createURL u) =
      if u = nid then 1 else 0 := by
  rw [List.count_append, cleanupEffs_createCount, countEff_singleton]
  by_cases hu : u = nid
  · simp [hu]
  · simp [hu, Ne.symm hu]

lemma selectEffs_revokeCount (src : Option Nat) (nid u : Nat) :
    (cleanupEffs src ++ [Eff.createURL nid]).count (Eff.revokeURL u) =
      if src = some u then 1 else 0 := by
  rw [List.count_append, cleanupEffs_revokeCount, countEff_singleton]
  simp

lemma selectEffs_createCount' (src : Option Nat) (nid u : Nat) :
    ([Eff.createURL nid] ++ cleanupEffs src).count (Eff.createURL u) =
      if u = nid then 1 else 0 := by
  rw [List.count_append, cleanupEffs_createCount, countEff_singleton]
  by_cases hu : u = nid
  · simp [hu]
  · simp [hu, Ne.symm hu]

lemma selectEffs_revokeCount' (src : Option Nat) (nid u : Nat) :
    ([Eff.createURL nid] ++ cleanupEffs src).count (Eff.revokeURL u) =
      if src = some u then 1 else 0 := by
  rw [List.count_append, cleanupEffs_revokeCount, countEff_singleton]
  simp

/-- Trace invariant of an EmotionDetector instance: the URL-pairing
invariant for the `src` handle, together with the fact that the preview
effect keeps `src` empty whenever no file is selected. -/
def EDInvTrace (s : EDState) (tr : List Eff) : Prop :=
  PrevInv s.src s.nextId tr ∧ (s.file = none → s.src = none)

lemma EDstep_invTrace (s : EDState) (e : EDEvent) (tr : List Eff)
    (h : EDInvTrace s tr) :
    EDInvTrace (EDstep s e).1 (tr ++ (EDstep s e).2) := by
  obtain ⟨hp, hfs⟩ := h
  cases e with
  | fileSelected f =>
    cases f with
    | none =>
      cases hf : s.file with
      | some g =>
        simp only [EDstep, hf]
        refine ⟨?_, fun _ => rfl⟩
        exact prevInv_clear _ _ _ _ hp (cleanupEffs_createCount s.src)
          (cleanupEffs_revokeCount s.src)
      | none =>
        simp only [EDstep, hf]
        refine ⟨?_, fun _ => hfs hf⟩
        exact prevInv_noop _ _ _ _ hp (fun u => rfl) (fun u => rfl)
    | some f =>
      by_cases ht : !(jsStartsWith f.type "video/")
      · simp only [EDstep, ht, if_true]
        exact ⟨prevInv_noop _ _ _ _ hp (fun u => rfl) (fun u => rfl),
               fun hn => hfs hn⟩
      · by_cases hs : 50 * 1024 * 1024 < f.size
        · simp only [EDstep, ht, if_false, hs, if_true]
          exact ⟨prevInv_noop _ _ _ _ hp (fun u => rfl) (fun u => rfl),
                 fun hn => hfs hn⟩
        · simp only [EDstep, ht, if_false, hs]
          refine ⟨?_, fun hn => by simp at hn⟩
          exact prevInv_select _ _ _ _ hp (selectEffs_createCount s.src s.nextId)
            (selectEffs_revokeCount s.src s.nextId)
  | setEmotion e =>
    exact ⟨prevInv_noop _ _ _ _ hp (fun u => rfl) (fun u => rfl), fun hn => hfs hn⟩
  | submitClick =>
    by_cases hl : s.loading
    · simp only [EDstep, hl, if_true]
      exact ⟨prevInv_noop _ _ _ _ hp (fun u => rfl) (fun u => rfl), fun hn => hfs hn⟩
    · cases hf : s.file with
      | none =>
        simp only [EDstep, hl, if_false, hf]
        exact ⟨prevInv_noop _ _ _ _ hp (fun u => rfl) (fun u => rfl), fun _ => hfs hf⟩
      | some f =>
        by_cases he : jsTrim s.emotion == ""
        · simp only [EDstep, hl, if_false, hf, he, if_true]
          exact ⟨prevInv_noop _ _ _ _ hp (fun u => rfl) (fun u => rfl), fun hn => by simp at hn⟩
        · simp only [EDstep, hl, if_false, hf, he]
          exact ⟨prevInv_noop _ _ _ _ hp
              (net_createCount (.emotionMultipart f s.emotion))
              (net_revokeCount (.emotionMultipart f s.emotion)),
            fun hn => by simp at hn⟩
  | response r =>
    by_cases h0 : s.inFlight == 0
    · simp only [EDstep, h0, if_true]
      exact ⟨prevInv_noop _ _ _ _ hp (fun u => rfl) (fun u => rfl), fun hn => hfs hn⟩
    · cases hj : r.json with
      | none =>
        simp only [EDstep, h0, if_false, hj]
        exact ⟨prevInv_noop _ _ _ _ hp (fun u => rfl) (fun u => rfl), fun hn => hfs hn⟩
      | some d =>
        by_cases hok : r.ok
        · simp only [EDstep, h0, if_false, hj, hok, if_true]
          exact ⟨prevInv_noop _ _ _ _ hp (fun u => rfl) (fun u => rfl), fun hn => hfs hn⟩
        · simp only [EDstep, h0, if_false, hj, hok]
          exact ⟨prevInv_noop _ _ _ _ hp (fun u => rfl) (fun u => rfl), fun hn => hfs hn⟩
  | clearClick =>
    cases hf : s.file with
    | some g =>
      simp only [EDstep, hf]
      refine ⟨?_, fun _ => rfl⟩
      exact prevInv_clear _ _ _ _ hp (cleanupEffs_createCount s.src)
        (cleanupEffs_revokeCount s.src)
    | none =>
      simp only [EDstep, hf]
      have hsrc : s.src = none := hfs hf
      refine ⟨?_, fun _ => rfl⟩
      rw [hsrc] at hp
      exact prevInv_noop _ _ _ _ hp (fun u => rfl) (fun u => rfl)

lemma runStep_EDinvTrace (evs : List EDEvent) :
    ∀ (s : EDState) (tr : List Eff), EDInvTrace s tr →
      EDInvTrace (runStep EDstep s evs).1 (tr ++ (runStep EDstep s evs).2) := by
  induction evs with
  | nil =>
    intro s tr h
    simpa [runStep] using h
  | cons e evs ih =>
    intro s tr h
    have h1 := EDstep_invTrace s e tr h
    have h2 := ih (EDstep s e).1 (tr ++ (EDstep s e).2) h1
    simpa [runStep, List.append_assoc] using h2

/-- Trace invariant of a VideoAnalyzer instance: the URL-pairing
invariant for the `preview` handle. -/
def VAInvTrace (s : VAState) (tr : List Eff) : Prop :=
  PrevInv s.preview s.nextId tr

lemma VAstep_invTrace (s : VAState) (e : VAEvent) (tr : List Eff)
    (h : VAInvTrace s tr) :
    VAInvTrace (VAstep s e).1 (tr ++ (VAstep s e).2) := by
  cases e with
  | fileChange f =>
    cases f with
    | none => exact prevInv_noop _ _ _ _ h (fun u => rfl) (fun u => rfl)
    | some f =>
      exact prevInv_select _ _ _ _ h (selectEffs_createCount' s.preview s.nextId)
        (selectEffs_revokeCount' s.preview s.nextId)
  | setEmotion e => exact prevInv_noop _ _ _ _ h (fun u => rfl) (fun u => rfl)
  | clearClick =>
    exact prevInv_clear _ _ _ _ h (cleanupEffs_createCount s.preview)
      (cleanupEffs_revokeCount s.preview)
  | submitClick =>
    by_cases hn : s.preview.isNone
    · simp only [VAstep, hn, if_true]
      exact prevInv_noop _ _ _ _ h (fun u => rfl) (fun u => rfl)
    · by_cases hl : s.loading
      · simp only [VAstep, hn, if_false, hl, if_true]
        exact prevInv_noop _ _ _ _ h (fun u => rfl) (fun u => rfl)
      · cases hf : s.file with
        | none =>
          simp only [VAstep, hn, if_false, hl, hf]
          exact prevInv_noop _ _ _ _ h (fun u => rfl) (fun u => rfl)
        | some f =>
          simp only [VAstep, hn, if_false, hl, hf]
          exact prevInv_noop _ _ _ _ h
            (net_createCount (.emotionMultipart f s.intendedEmotion))
            (net_revokeCount (.emotionMultipart f s.intendedEmotion))
  | response r =>
    by_cases h0 : s.inFlight == 0
    · simp only [VAstep, h0, if_true]
      exact prevInv_noop _ _ _ _ h (fun u => rfl) (fun u => rfl)
    · by_cases hok : r.ok
      · cases hj : r.json with
        | some d =>
          simp only [VAstep, h0, if_false, hok, if_true, hj]
          exact prevInv_noop _ _ _ _ h (fun u => rfl) (fun u => rfl)
        | none =>
          simp only [VAstep, h0, if_false, hok, if_true, hj]
          exact prevInv_noop _ _ _ _ h (fun u => rfl) (fun u => rfl)
      · simp only [VAstep, h0, if_false, hok]
        exact prevInv_noop _ _ _ _ h (fun u => rfl) (fun u => rfl)

lemma runStep_VAinvTrace (evs : List VAEvent) :
    ∀ (s : VAState) (tr : List Eff), VAInvTrace s tr →
      VAInvTrace (runStep VAstep s evs).1 (tr ++ (runStep VAstep s evs).2) := by
  induction evs with
  | nil =>
    intro s tr h
    simpa [runStep] using h
  | cons e evs ih =>
    intro s tr h
    have h1 := VAstep_invTrace s e tr h
    have h2 := ih (VAstep s e).1 (tr ++ (VAstep s e).2) h1
    simpa [runStep, List.append_assoc] using h2

lemma jsErrMsg_ne_empty (m : String) : jsErrMsg m ≠ "" := by
  unfold jsErrMsg
  by_cases h : m = ""
  · simp [h]
  · simp [h]

/-- State invariant of ScriptTransformer: the in-flight counter mirrors
the pending phase, a pending submission has cleared the error and the
result, and a truthy result is never accompanied by an error message. -/
def STInv (s : STState) : Prop :=
  s.inFlight = (if s.loading then 1 else 0) ∧
  (s.loading = true → s.error = "" ∧ s.result = none) ∧
  (truthyO s.result = true → s.error = "")

lemma STstep_inv (s : STState) (e : STEvent) (h : STInv s) : STInv (STstep s e).1 := by
  obtain ⟨h1, h2, h3⟩ := h
  cases e with
  | setGenre g => exact ⟨h1, h2, h3⟩
  | setText t => exact ⟨h1, h2, h3⟩
  | submitClick =>
    by_cases hc1 : (s.loading || s.text == "")
    · simp only [STstep, hc1, if_true]
      exact ⟨h1, h2, h3⟩
    · have hl : s.loading = false := by
        cases hv : s.loading
        · rfl
        · rw [hv] at hc1; simp at hc1
      by_cases hc2 : (jsTrim s.text == "")
      · simp only [STstep, hc1, if_false, hc2, if_true]
        exact ⟨h1, h2, h3⟩
      · have hstep : STstep s .submitClick =
            ({ s with loading := true, error := "", result := none,
                      inFlight := s.inFlight + 1 },
             [.net (.scriptJson s.text (jsOrSS (jsTrim s.genre) "Screenplay"))]) := by
          simp [STstep, hc1, hc2]
        rw [hstep]
        refine ⟨?_, fun _ => ⟨rfl, rfl⟩, fun hr => by simp [truthyO] at hr⟩
        have hif0 : s.inFlight = 0 := by rw [hl] at h1; simpa using h1
        simp [hif0]
  | response r =>
    by_cases h0 : (s.inFlight == 0)
    · simp only [STstep, h0, if_true]
      exact ⟨h1, h2, h3⟩
    · have hl : s.loading = true := by
        cases hv : s.loading
        · rw [hv] at h1; simp at h1; simp [h1] at h0
        · rfl
      have hif : s.inFlight = 1 := by rw [hl] at h1; simpa using h1
      obtain ⟨he, hr⟩ := h2 hl
      by_cases hok : r.ok
      · cases hj : r.json with
        | some d =>
          simp only [STstep, h0, if_false, hok, if_true, hj]
          exact ⟨by simp [hif], by simp, fun _ => he⟩
        | none =>
          simp only [STstep, h0, if_false, hok, if_true, hj]
          exact ⟨by simp [hif], by simp, fun ht => by rw [hr] at ht; simp [truthyO] at ht⟩
      · simp only [STstep, h0, if_false, hok]
        exact ⟨by simp [hif], by simp, fun ht => by rw [hr] at ht; simp [truthyO] at ht⟩

lemma runStep_STinv (evs : List STEvent) :
    ∀ s : STState, STInv s → STInv (runStep STstep s evs).1 := by
  induction evs with
  | nil => intro s h; simpa [runStep] using h
  | cons e evs ih =>
    intro s h
    have h1 := STstep_inv s e h
    simpa [runStep] using ih (STstep s e).1 h1

lemma STinv_init : STInv initST := by
  refine ⟨rfl, fun h => by simp [initST] at h, fun h => by simp [initST, truthyO] at h⟩

lemma reachST_inv (s : STState) (h : ReachST s) : STInv s := by
  obtain ⟨evs, rfl⟩ := h
  exact runStep_STinv evs initST STinv_init

/-- State invariant of VideoAnalyzer: the in-flight counter mirrors the
pending phase, a pending submission has cleared the error and the
result, the preview and the file are held together, and a present result
is never accompanied by an error message. -/
def VAInv (s : VAState) : Prop :=
  s.inFlight = (if s.loading then 1 else 0) ∧
  (s.loading = true → s.error = "" ∧ s.result = none) ∧
  (s.preview.isSome = s.file.isSome) ∧
  (s.result.isSome = true → s.error = "")

lemma VAstep_inv (s : VAState) (e : VAEvent) (h : VAInv s) : VAInv (VAstep s e).1 := by
  obtain ⟨h1, h2, h3, h4⟩ := h
  cases e with
  | fileChange f =>
    cases f with
    | none => exact ⟨h1, h2, h3, h4⟩
    | some f =>
      exact ⟨h1, fun hl => ⟨rfl, rfl⟩, rfl, fun hr => absurd hr (by simp [VAstep])⟩
  | setEmotion e => exact ⟨h1, h2, h3, h4⟩
  | clearClick =>
    exact ⟨h1, fun hl => ⟨(h2 hl).1, rfl⟩, rfl, fun hr => absurd hr (by simp [VAstep])⟩
  | submitClick =>
    by_cases hn : s.preview.isNone
    · simp only [VAstep, hn, if_true]
      exact ⟨h1, h2, h3, h4⟩
    · by_cases hl : s.loading
      · simp only [VAstep, hn, if_false, hl, if_true]
        exact ⟨h1, h2, h3, h4⟩
      · cases hf : s.file with
        | none =>
          exfalso
          rw [hf] at h3
          simp at h3
          simp [h3] at hn
        | some f =>
          have hl' : s.loading = false := by
            cases hv : s.loading
            · rfl
            · exact absurd hv hl
          have hstep : VAstep s .submitClick =
              ({ s with loading := true, error := "", result := none,
                        inFlight := s.inFlight + 1 },
               [.net (.emotionMultipart f s.intendedEmotion)]) := by
            simp [VAstep, hn, hl, hf]
          rw [hstep]
          refine ⟨?_, fun _ => ⟨rfl, rfl⟩, h3, fun hr => by simp at hr⟩
          have hif0 : s.inFlight = 0 := by rw [hl'] at h1; simpa using h1
          simp [hif0]
  | response r =>
    by_cases h0 : (s.inFlight == 0)
    · simp only [VAstep, h0, if_true]
      exact ⟨h1, h2, h3, h4⟩
    · have hl : s.loading = true := by
        cases hv : s.loading
        · rw [hv] at h1; simp at h1; simp [h1] at h0
        · rfl
      have hif : s.inFlight = 1 := by rw [hl] at h1; simpa using h1
      obtain ⟨he, hr⟩ := h2 hl
      by_cases hok : r.ok
      · cases hj : r.json with
        | some d =>
          simp only [VAstep, h0, if_false, hok, if_true, hj]
          exact ⟨by simp [hif], by simp, h3, fun _ => he⟩
        | none =>
          simp only [VAstep, h0, if_false, hok, if_true, hj]
          exact ⟨by simp [hif], by simp, h3, fun ht => by rw [hr] at ht; simp at ht⟩
      · simp only [VAstep, h0, if_false, hok]
        exact ⟨by simp [hif], by simp, h3, fun ht => by rw [hr] at ht; simp at ht⟩

lemma runStep_VAinv (evs : List VAEvent) :
    ∀ s : VAState, VAInv s → VAInv (runStep VAstep s evs).1 := by
  induction evs with
  | nil => intro s h; simpa [runStep] using h
  | cons e evs ih =>
    intro s h
    have h1 := VAstep_inv s e h
    simpa [runStep] using ih (VAstep s e).1 h1

lemma VAinv_init : VAInv initVA := by
  refine ⟨rfl, fun h => by simp [initVA] at h, rfl, fun h => by simp [initVA] at h⟩

lemma reachVA_inv (s : VAState) (h : ReachVA s) : VAInv s := by
  obtain ⟨evs, rfl⟩ := h
  exact runStep_VAinv evs initVA VAinv_init

/-- State invariant of ScriptWriter: the in-flight counter mirrors the
pending phase. -/
def SWInv (s : SWState) : Prop :=
  s.inFlight = (if s.loading then 1 else 0)

lemma SWstep_inv (s : SWState) (e : SWEvent) (h : SWInv s) : SWInv (SWstep s e).1 := by
  have h1 : s.inFlight = (if s.loading then 1 else 0) := h
  cases e with
  | setGenre g => exact h
  | setText t => exact h
  | pdfSelected f => exact h
  | resetClick => exact h
  | submitClick =>
    by_cases hl : s.loading
    · simp only [SWstep, hl, if_true]
      exact h
    · have hl' : s.loading = false := by
        cases hv : s.loading
        · rfl
        · exact absurd hv hl
      have hif0 : s.inFlight = 0 := by rw [hl'] at h1; simpa using h1
      by_cases hv : (s.pdf.isNone && jsTrim s.text == "")
      · have hstep : SWstep s .submitClick =
            ({ s with err := "Please paste script text or upload a PDF.", out := none }, []) := by
          simp [SWstep, hl, hv]
        rw [hstep]
        exact h
      · cases hf : s.pdf with
        | some f =>
          have hstep : SWstep s .submitClick =
              ({ s with err := "", out := none, loading := true,
                        inFlight := s.inFlight + 1 },
               [.net (.scriptPdf f s.genre)]) := by
            simp [SWstep, hl, hv, hf]
          rw [hstep]
          simp [SWInv, hif0]
        | none =>
          have htr : ¬ jsTrim s.text = "" := by
            rw [hf] at hv
            simpa using hv
          have hstep : SWstep s .submitClick =
              ({ s with err := "", out := none, loading := true,
                        inFlight := s.inFlight + 1 },
               [.net (.scriptJson s.text s.genre)]) := by
            simp [SWstep, hl, hf, htr]
          rw [hstep]
          simp [SWInv, hif0]
  | response r =>
    by_cases h0 : (s.inFlight == 0)
    · simp only [SWstep, h0, if_true]
      exact h
    · have hl : s.loading = true := by
        cases hv : s.loading
        · rw [hv] at h1; simp at h1; simp [h1] at h0
        · rfl
      have hif : s.inFlight = 1 := by rw [hl] at h1; simpa using h1
      cases hj : r.json with
      | none =>
        simp only [SWstep, h0, if_false, hj]
        simp [SWInv, hif]
      | some d =>
        by_cases hok : r.ok
        · simp only [SWstep, h0, if_false, hj, hok, if_true]
          simp [SWInv, hif]
        · simp only [SWstep, h0, if_false, hj, hok]
          simp [SWInv, hif]

lemma runStep_SWinv (evs : List SWEvent) :
    ∀ s : SWState, SWInv s → SWInv (runStep SWstep s evs).1 := by
  induction evs with
  | nil => intro s h; simpa [runStep] using h
  | cons e evs ih =>
    intro s h
    have h1 := SWstep_inv s e h
    simpa [runStep] using ih (SWstep s e).1 h1

lemma SWinv_init : SWInv initSW := rfl

lemma reachSW_inv (s : SWState) (h : ReachSW s) : SWInv s := by
  obtain ⟨evs, rfl⟩ := h
  exact runStep_SWinv evs initSW SWinv_init

/-- State invariant of EmotionDetector: the in-flight counter mirrors the
pending phase, and a pending submission has cleared the result. -/
def EDInv (s : EDState) : Prop :=
  s.inFlight = (if s.loading then 1 else 0) ∧
  (s.loading = true → s.result = none)

lemma EDstep_inv (s : EDState) (e : EDEvent) (h : EDInv s) : EDInv (EDstep s e).1 := by
  obtain ⟨h1, h2⟩ := h
  cases e with
  | fileSelected f =>
    cases f with
    | none =>
      cases hf : s.file with
      | some g =>
        simp only [EDstep, hf]
        exact ⟨h1, fun _ => rfl⟩
      | none =>
        simp only [EDstep, hf]
        exact ⟨h1, fun _ => rfl⟩
    | some f =>
      by_cases ht : !(jsStartsWith f.type "video/")
      · simp only [EDstep, ht, if_true]
        exact ⟨h1, fun _ => rfl⟩
      · by_cases hs : 50 * 1024 * 1024 < f.size
        · simp only [EDstep, ht, if_false, hs, if_true]
          exact ⟨h1, fun _ => rfl⟩
        · simp only [EDstep, ht, if_false, hs]
          exact ⟨h1, fun _ => rfl⟩
  | setEmotion e => exact ⟨h1, h2⟩
  | clearClick =>
    cases hf : s.file with
    | some g =>
      simp only [EDstep, hf]
      exact ⟨h1, fun _ => rfl⟩
    | none =>
      simp only [EDstep, hf]
      exact ⟨h1, fun _ => rfl⟩
  | submitClick =>
    by_cases hl : s.loading
    · simp only [EDstep, hl, if_true]
      exact ⟨h1, h2⟩
    · have hl' : s.loading = false := by
        cases hv : s.loading
        · rfl
        · exact absurd hv hl
      have hif0 : s.inFlight = 0 := by rw [hl'] at h1; simpa using h1
      cases hf : s.file with
      | none =>
        have hstep : EDstep s .submitClick =
            ({ s with error := "Upload video and enter intended emotion" }, []) := by
          simp [EDstep, hl, hf]
        rw [hstep]
        exact ⟨h1, h2⟩
      | some f =>
        by_cases he : jsTrim s.emotion == ""
        · have hstep : EDstep s .submitClick =
              ({ s with error := "Upload video and enter intended emotion" }, []) := by
            simp [EDstep, hl, hf, he]
          rw [hstep]
          exact ⟨h1, h2⟩
        · have hstep : EDstep s .submitClick =
              ({ s with loading := true, error := "", result := none,
                        inFlight := s.inFlight + 1 },
               [.net (.emotionMultipart f s.emotion)]) := by
            simp [EDstep, hl, hf, he]
          rw [hstep]
          exact ⟨by simp [hif0], fun _ => rfl⟩
  | response r =>
    by_cases h0 : (s.inFlight == 0)
    · simp only [EDstep, h0, if_true]
      exact ⟨h1, h2⟩
    · have hl : s.loading = true := by
        cases hv : s.loading
        · rw [hv] at h1; simp at h1; simp [h1] at h0
        · rfl
      have hif : s.inFlight = 1 := by rw [hl] at h1; simpa using h1
      cases hj : r.json with
      | none =>
        simp only [EDstep, h0, if_false, hj]
        exact ⟨by simp [hif], fun hc => by simp at hc⟩
      | some d =>
        by_cases hok : r.ok
        · simp only [EDstep, h0, if_false, hj, hok, if_true]
          exact ⟨by simp [hif], fun hc => by simp at hc⟩
        · simp only [EDstep, h0, if_false, hj, hok]
          exact ⟨by simp [hif], fun hc => by simp at hc⟩

lemma runStep_EDinv (evs : List EDEvent) :
    ∀ s : EDState, EDInv s → EDInv (runStep EDstep s evs).1 := by
  induction evs with
  | nil => intro s h; simpa [runStep] using h
  | cons e evs ih =>
    intro s h
    have h1 := EDstep_inv s e h
    simpa [runStep] using ih (EDstep s e).1 h1

lemma EDinv_init : EDInv initED := ⟨rfl, fun h => by simp [initED] at h⟩

lemma reachED_inv (s : EDState) (h : ReachED s) : EDInv s := by
  obtain ⟨evs, rfl⟩ := h
  exact runStep_EDinv evs initED EDinv_init

lemma jsErrMsg_jsOrS (o : Option String) :
    jsErrMsg (jsOrS o "Server error") = jsOrS o "Server error" := by
  cases o with
  | none => rfl
  | some s =>
    by_cases hs : s = ""
    · simp [jsOrS, jsErrMsg, hs]
    · simp [jsOrS, jsErrMsg, hs]

/-- A small valid video file used in concrete scenarios. -/
def vidFile : JSFile := ⟨"clip.mp4", "video/mp4", 1000⟩

/-- A second valid video file, selected after the first. -/
def vidFile2 : JSFile := ⟨"take2.mp4", "video/mp4", 2000⟩

/-- A non-video file (declared MIME type application/pdf). -/
def pdfFile : JSFile := ⟨"notes.pdf", "application/pdf", 1024⟩

/-- EmotionDetector state after selecting a valid video. -/
def edSelected : EDState := (runStep EDstep initED [.fileSelected (some vidFile)]).1

/-- VideoAnalyzer state after selecting a video file. -/
def vaSelected : VAState := (runStep VAstep initVA [.fileChange (some vidFile)]).1

/-- ScriptTransformer state with a pending submission. -/
def stPending : STState := (runStep STstep initST [.setText "x", .submitClick]).1

/-- VideoAnalyzer state with a pending submission. -/
def vaPending : VAState :=
  (runStep VAstep initVA [.fileChange (some vidFile), .submitClick]).1

/-- ScriptWriter state with a pending submission. -/
def swPending : SWState := (runStep SWstep initSW [.setText "x", .submitClick]).1

/-- EmotionDetector state with a pending submission. -/
def edPending : EDState :=
  (runStep EDstep initED [.fileSelected (some vidFile), .setEmotion "joy", .submitClick]).1

/-- C1.  For every controller instance whose submission phase is pending
(loading = true), invoking submit again is a no-op: the state is
unchanged, no effect (in particular no network call) is emitted, and no
SubmissionState transition occurs.  Moreover at most one request is in
flight per instance in every reachable state, for all four controllers
(ScriptTransformer, VideoAnalyzer, ScriptWriter, EmotionDetector). -/
theorem submit_pending_noop_and_single_flight :
    ∀ (sST : STState) (sVA : VAState) (sSW : SWState) (sED : EDState),
      (sST.loading = true → STstep sST .submitClick = (sST, [])) ∧
      (ReachST sST → sST.inFlight ≤ 1) ∧
      (sVA.loading = true → VAstep sVA .submitClick = (sVA, [])) ∧
      (ReachVA sVA → sVA.inFlight ≤ 1) ∧
      (sSW.loading = true → SWstep sSW .submitClick = (sSW, [])) ∧
      (ReachSW sSW → sSW.inFlight ≤ 1) ∧
      (sED.loading = true → EDstep sED .submitClick = (sED, [])) ∧
      (ReachED sED → sED.inFlight ≤ 1) := by
  intro sST sVA sSW sED
  refine ⟨?_, ?_, ?_, ?_, ?_, ?_, ?_, ?_⟩
  · intro hl
    simp [STstep, hl]
  · intro hr
    obtain ⟨h1, _, _⟩ := reachST_inv sST hr
    rw [h1]
    split <;> omega
  · intro hl
    simp [VAstep, hl]
  · intro hr
    obtain ⟨h1, _, _, _⟩ := reachVA_inv sVA hr
    rw [h1]
    split <;> omega
  · intro hl
    simp [SWstep, hl]
  · intro hr
    have h1 : sSW.inFlight = (if sSW.loading then 1 else 0) := reachSW_inv sSW hr
    rw [h1]
    split <;> omega
  · intro hl
    simp [EDstep, hl]
  · intro hr
    obtain ⟨h1, _⟩ := reachED_inv sED hr
    rw [h1]
    split <;> omega

/-- Witness for C1 at concrete pending states of all four controllers. -/
theorem submit_pending_noop_and_single_flight_witness :
    (STstep stPending .submitClick = (stPending, []) ∧ stPending.inFlight ≤ 1) ∧
    (VAstep vaPending .submitClick = (vaPending, []) ∧ vaPending.inFlight ≤ 1) ∧
    (SWstep swPending .submitClick = (swPending, []) ∧ swPending.inFlight ≤ 1) ∧
    (EDstep edPending .submitClick = (edPending, []) ∧ edPending.inFlight ≤ 1) := by
  have h := submit_pending_noop_and_single_flight stPending vaPending swPending edPending
  refine ⟨⟨h.1 rfl, h.2.1 ⟨[.setText "x", .submitClick], rfl⟩⟩,
          ⟨h.2.2.1 rfl, h.2.2.2.1 ⟨[.fileChange (some vidFile), .submitClick], rfl⟩⟩,
          ⟨h.2.2.2.2.1 rfl, h.2.2.2.2.2.1 ⟨[.setText "x", .submitClick], rfl⟩⟩,
          ⟨h.2.2.2.2.2.2.1 rfl,
           h.2.2.2.2.2.2.2 ⟨[.fileSelected (some vidFile), .setEmotion "joy", .submitClick], rfl⟩⟩⟩

/-- C2 counterexample: the VideoAnalyzer emotion flow performs no
type/size validation in `handleFileChange`.  Selecting a file whose
declared media type is application/pdf replaces the (empty) previous
selection and produces no validation error, contradicting the claim for
this flow. -/
theorem video_gating_counterexample :
    initVA.file = none ∧
    jsStartsWith pdfFile.type "video/" = false ∧
    (VAstep initVA (.fileChange (some pdfFile))).1.file = some pdfFile ∧
    (VAstep initVA (.fileChange (some pdfFile))).1.error = "" := by
  exact ⟨rfl, by decide, rfl, rfl⟩

/-- C2 (amended).  In the EmotionDetector emotion flow, selecting a file
whose declared media type is not a video type or whose size exceeds
50 MiB leaves the previous selection and its preview unchanged, emits no
effect (in particular no network call), and produces a validation
error.  The VideoAnalyzer flow performs no such client-side check (see
the counterexample). -/
theorem video_gating_amended :
    ∀ (s : EDState) (f : JSFile),
      (jsStartsWith f.type "video/" = false ∨ 50 * 1024 * 1024 < f.size) →
      (EDstep s (.fileSelected (some f))).1.file = s.file ∧
      (EDstep s (.fileSelected (some f))).1.src = s.src ∧
      (EDstep s (.fileSelected (some f))).2 = [] ∧
      (EDstep s (.fileSelected (some f))).1.error ≠ "" := by
  intro s f hf
  cases hb : (!(jsStartsWith f.type "video/")) with
  | true =>
    have hstep : EDstep s (.fileSelected (some f)) =
        ({ s with error := "Please upload a valid video file", result := none }, []) := by
      simp [EDstep, hb]
    rw [hstep]
    have hne : ("Please upload a valid video file" : String) ≠ "" := by decide
    exact ⟨rfl, rfl, rfl, hne⟩
  | false =>
    have hsz : 50 * 1024 * 1024 < f.size := by
      rcases hf with hf | hf
      · rw [hf] at hb
        simp at hb
      · exact hf
    have hstep : EDstep s (.fileSelected (some f)) =
        ({ s with error := "File too large (50MB max)", result := none }, []) := by
      simp [EDstep, hb, hsz]
    rw [hstep]
    have hne : ("File too large (50MB max)" : String) ≠ "" := by decide
    exact ⟨rfl, rfl, rfl, hne⟩

/-- Witness for C2 (amended) at the initial EmotionDetector state and a
PDF file. -/
theorem video_gating_witness :
    (EDstep initED (.fileSelected (some pdfFile))).1.file = initED.file ∧
    (EDstep initED (.fileSelected (some pdfFile))).1.src = initED.src ∧
    (EDstep initED (.fileSelected (some pdfFile))).2 = [] ∧
    (EDstep initED (.fileSelected (some pdfFile))).1.error ≠ "" :=
  video_gating_amended initED pdfFile (Or.inl (by decide))

/-- C3.  Preview lifecycle for both emotion flows.  (1)/(2): for every
sequence of events followed by unmount, every preview URL created during
an EmotionDetector (resp. VideoAnalyzer) lifetime has exactly one
matching revocation — no leak, no double release.  (3): when the
EmotionDetector holds a live preview URL and a valid new file is
selected, that step revokes the old URL before creating the new one.
(4): when the VideoAnalyzer holds a live preview URL and a new file is
selected, that same step creates the new URL (in the handler) and then
revokes the old one (in the effect cleanup) — release upon creation. -/
theorem preview_lifecycle_paired :
    (∀ (evs : List EDEvent) (u : Nat),
       urlCreates (EDfullTrace evs) u = urlRevokes (EDfullTrace evs) u ∧
       urlCreates (EDfullTrace evs) u ≤ 1) ∧
    (∀ (evs : List VAEvent) (u : Nat),
       urlCreates (VAfullTrace evs) u = urlRevokes (VAfullTrace evs) u ∧
       urlCreates (VAfullTrace evs) u ≤ 1) ∧
    (∀ (s : EDState) (f : JSFile) (u : Nat),
       s.src = some u → jsStartsWith f.type "video/" = true → f.size ≤ 50 * 1024 * 1024 →
       (EDstep s (.fileSelected (some f))).2 = [.revokeURL u, .createURL s.nextId]) ∧
    (∀ (s : VAState) (f : JSFile) (u : Nat),
       s.preview = some u →
       (VAstep s (.fileChange (some f))).2 = [.createURL s.nextId, .revokeURL u]) := by
  refine ⟨?_, ?_, ?_, ?_⟩
  · intro evs u
    have h0 : EDInvTrace initED [] := ⟨prevInv_nil, fun _ => rfl⟩
    have h := runStep_EDinvTrace evs initED [] h0
    rw [List.nil_append] at h
    exact prevInv_unmount _ _ _ h.1 u
  · intro evs u
    have h0 : VAInvTrace initVA [] := prevInv_nil
    have h := runStep_VAinvTrace evs initVA [] h0
    rw [List.nil_append] at h
    exact prevInv_unmount _ _ _ h u
  · intro s f u hs ht hsz
    have hb : (!(jsStartsWith f.type "video/")) = false := by simp [ht]
    have hb2 : ¬ (50 * 1024 * 1024 < f.size) := by omega
    have hstep : (EDstep s (.fileSelected (some f))).2 =
        cleanupEffs s.src ++ [.createURL s.nextId] := by
      simp [EDstep, hb, hb2]
    rw [hstep, hs]
    rfl
  · intro s f u hs
    have hstep : (VAstep s (.fileChange (some f))).2 =
        [Eff.createURL s.nextId] ++ cleanupEffs s.preview := rfl
    rw [hstep, hs]
    rfl

/-- Witness for C3: a concrete trace (select, reselect, clear, unmount),
and the per-step revoke/create shapes at states holding a live URL. -/
theorem preview_lifecycle_paired_witness :
    (urlCreates (EDfullTrace [.fileSelected (some vidFile), .fileSelected (some vidFile2)]) 0 =
       urlRevokes (EDfullTrace [.fileSelected (some vidFile), .fileSelected (some vidFile2)]) 0) ∧
    (EDstep edSelected (.fileSelected (some vidFile2))).2 =
      [.revokeURL 0, .createURL edSelected.nextId] ∧
    (VAstep vaSelected (.fileChange (some vidFile2))).2 =
      [.createURL vaSelected.nextId, .revokeURL 0] := by
  have h := preview_lifecycle_paired
  exact ⟨(h.1 [.fileSelected (some vidFile), .fileSelected (some vidFile2)] 0).1,
         h.2.2.1 edSelected vidFile2 0 rfl (by decide) (by decide),
         h.2.2.2 vaSelected vidFile2 0 rfl⟩

/-- C4 counterexample: in the VideoAnalyzer emotion flow, with a file
selected and the intended-emotion string empty, clicking analyze issues
the network call (carrying an empty `user_emotion`) instead of failing
fast with a local validation error. -/
theorem emotion_submit_preconditions_counterexample :
    vaSelected.intendedEmotion = "" ∧
    (VAstep vaSelected .submitClick).2 = [.net (.emotionMultipart vidFile "")] ∧
    (VAstep vaSelected .submitClick).1.error = "" := by
  exact ⟨rfl, rfl, rfl⟩

/-- C4 (amended).  In the EmotionDetector flow the claim holds: a submit
with no file selected or with a blank intended-emotion string sets the
local validation error and emits no effect.  In the VideoAnalyzer flow
only file presence is checked: with a file selected, submit always
issues the network call, sending whatever intended-emotion string is
current (possibly empty).  (A VideoAnalyzer submit without a file cannot
be triggered: the analyze control is rendered only while a preview
exists.) -/
theorem emotion_submit_preconditions_amended :
    ∀ (sED : EDState) (sVA : VAState) (f : JSFile),
      (sED.loading = false →
        (sED.file = none ∨ jsTrim sED.emotion = "") →
        (EDstep sED .submitClick).2 = [] ∧
        (EDstep sED .submitClick).1.error = "Upload video and enter intended emotion") ∧
      (sVA.loading = false → sVA.preview.isNone = false → sVA.file = some f →
        (VAstep sVA .submitClick).2 = [.net (.emotionMultipart f sVA.intendedEmotion)]) := by
  intro sED sVA f
  constructor
  · intro hl hpre
    cases hf : sED.file with
    | none =>
      have hstep : EDstep sED .submitClick =
          ({ sED with error := "Upload video and enter intended emotion" }, []) := by
        simp [EDstep, hl, hf]
      rw [hstep]
      exact ⟨rfl, rfl⟩
    | some g =>
      have he : jsTrim sED.emotion = "" := by
        rcases hpre with h | h
        · rw [hf] at h
          exact absurd h (by simp)
        · exact h
      have hstep : EDstep sED .submitClick =
          ({ sED with error := "Upload video and enter intended emotion" }, []) := by
        simp [EDstep, hl, hf, he]
      rw [hstep]
      exact ⟨rfl, rfl⟩
  · intro hl hp hf
    have hstep : VAstep sVA .submitClick =
        ({ sVA with loading := true, error := "", result := none,
                    inFlight := sVA.inFlight + 1 },
         [.net (.emotionMultipart f sVA.intendedEmotion)]) := by
      simp [VAstep, hp, hl, hf]
    rw [hstep]

/-- Witness for C4 (amended): the EmotionDetector part at the initial
state (no file), the VideoAnalyzer part at a state with a selected file
and empty label. -/
theorem emotion_submit_preconditions_witness :
    ((EDstep initED .submitClick).2 = [] ∧
     (EDstep initED .submitClick).1.error = "Upload video and enter intended emotion") ∧
    (VAstep vaSelected .submitClick).2 =
      [.net (.emotionMultipart vidFile vaSelected.intendedEmotion)] := by
  have h := emotion_submit_preconditions_amended initED vaSelected vidFile
  exact ⟨h.1 rfl (Or.inl rfl), h.2 rfl rfl rfl⟩

/-- The non-success response used in the C5 scenario: the server body
parses and carries a `detail` message. -/
def stFailResp : HttpResp ScriptJson := ⟨false, some { detail := some "quota exceeded" }, ""⟩

/-- ScriptTransformer state after submitting and receiving that
non-success response. -/
def stAfterFail : STState :=
  (runStep STstep initST [.setText "x", .submitClick, .response stFailResp]).1

/-- C5 counterexample: ScriptTransformer receives a non-success response
whose body carries the server message "quota exceeded", yet the failed
phase carries the fixed generic message; the handler never reads the
body on failure, so no server-supplied message is surfaced. -/
theorem failure_message_counterexample :
    stAfterFail.error = cSTfail ∧
    cSTfail ≠ "quota exceeded" ∧
    stAfterFail.loading = false := by
  exact ⟨rfl, by decide, rfl⟩

/-- C5 (amended).  On a non-success HTTP status: ScriptWriter and
EmotionDetector read the parsed body and show its `detail` field,
falling back to "Server error" when it is absent or empty (and to the
parse exception message when the body is unparseable); ScriptTransformer
and VideoAnalyzer instead transition to the failed phase carrying a
fixed generic message, independent of the response body. -/
theorem failure_message_amended :
    ∀ (sSW : SWState) (sED : EDState) (sST : STState) (sVA : VAState)
      (d : ScriptJson) (e : EmotionJson)
      (rST : HttpResp ScriptJson) (rVA : HttpResp EmotionJson) (m : String),
      (sSW.inFlight = 1 →
        (SWstep sSW (.response ⟨false, some d, ""⟩)).1.err = jsOrS d.detail "Server error") ∧
      (sSW.inFlight = 1 →
        (SWstep sSW (.response ⟨false, none, m⟩)).1.err = jsErrMsg m) ∧
      (sED.inFlight = 1 →
        (EDstep sED (.response ⟨false, some e, ""⟩)).1.error = jsOrS e.detail "Server error") ∧
      (sED.inFlight = 1 →
        (EDstep sED (.response ⟨false, none, m⟩)).1.error = jsErrMsg m) ∧
      (sST.inFlight = 1 → rST.ok = false →
        (STstep sST (.response rST)).1.error = cSTfail) ∧
      (sVA.inFlight = 1 → rVA.ok = false →
        (VAstep sVA (.response rVA)).1.error = cVAfail) := by
  intro sSW sED sST sVA d e rST rVA m
  refine ⟨?_, ?_, ?_, ?_, ?_, ?_⟩
  · intro hif
    have h0 : (sSW.inFlight == 0) = false := by simp [hif]
    have hstep : SWstep sSW (.response ⟨false, some d, ""⟩) =
        ({ sSW with loading := false, inFlight := sSW.inFlight - 1,
                    err := jsErrMsg (jsOrS d.detail "Server error") }, []) := by
      simp [SWstep, h0]
    rw [hstep]
    exact jsErrMsg_jsOrS d.detail
  · intro hif
    have h0 : (sSW.inFlight == 0) = false := by simp [hif]
    have hstep : SWstep sSW (.response ⟨false, none, m⟩) =
        ({ sSW with loading := false, inFlight := sSW.inFlight - 1,
                    err := jsErrMsg m }, []) := by
      simp [SWstep, h0]
    rw [hstep]
  · intro hif
    have h0 : (sED.inFlight == 0) = false := by simp [hif]
    have hstep : EDstep sED (.response ⟨false, some e, ""⟩) =
        ({ sED with loading := false, inFlight := sED.inFlight - 1,
                    error := jsErrMsg (jsOrS e.detail "Server error") }, []) := by
      simp [EDstep, h0]
    rw [hstep]
    exact jsErrMsg_jsOrS e.detail
  · intro hif
    have h0 : (sED.inFlight == 0) = false := by simp [hif]
    have hstep : EDstep sED (.response ⟨false, none, m⟩) =
        ({ sED with loading := false, inFlight := sED.inFlight - 1,
                    error := jsErrMsg m }, []) := by
      simp [EDstep, h0]
    rw [hstep]
  · intro hif hok
    have h0 : (sST.inFlight == 0) = false := by simp [hif]
    have hstep : STstep sST (.response rST) =
        ({ sST with loading := false, inFlight := sST.inFlight - 1, error := cSTfail }, []) := by
      simp [STstep, h0, hok]
    rw [hstep]
  · intro hif hok
    have h0 : (sVA.inFlight == 0) = false := by simp [hif]
    have hstep : VAstep sVA (.response rVA) =
        ({ sVA with loading := false, inFlight := sVA.inFlight - 1, error := cVAfail }, []) := by
      simp [VAstep, h0, hok]
    rw [hstep]

/-- A non-success emotion response with a detail message. -/
def edFailResp : HttpResp EmotionJson := ⟨false, some { detail := some "bad video" }, ""⟩

/-- Witness for C5 (amended) at concrete pending states. -/
theorem failure_message_witness :
    (SWstep swPending (.response ⟨false, some { detail := some "quota exceeded" }, ""⟩)).1.err =
      jsOrS (some "quota exceeded") "Server error" ∧
    (SWstep swPending (.response ⟨false, none, "Unexpected token"⟩)).1.err =
      jsErrMsg "Unexpected token" ∧
    (EDstep edPending (.response edFailResp)).1.error =
      jsOrS (some "bad video") "Server error" ∧
    (EDstep edPending (.response ⟨false, none, "Unexpected token"⟩)).1.error =
      jsErrMsg "Unexpected token" ∧
    (STstep stPending (.response stFailResp)).1.error = cSTfail ∧
    (VAstep vaPending (.response ⟨false, none, ""⟩)).1.error = cVAfail := by
  have h := failure_message_amended swPending edPending stPending vaPending
    { detail := some "quota exceeded" } { detail := some "bad video" }
    stFailResp ⟨false, none, ""⟩ "Unexpected token"
  exact ⟨h.1 rfl, h.2.1 rfl, h.2.2.1 rfl, h.2.2.2.1 rfl,
         h.2.2.2.2.1 rfl rfl, h.2.2.2.2.2 rfl rfl⟩

/-- The successful emotion response used in the C6 scenario. -/
def edOkResp : HttpResp EmotionJson :=
  ⟨true, some { predicted_emotion := some "joy", confidence := some 87,
                matched := some true }, ""⟩

/-- EmotionDetector state after a successful analysis, then emptying the
intended-emotion field and clicking analyze again. -/
def edStale : EDState :=
  (runStep EDstep initED
    [.fileSelected (some vidFile), .setEmotion "joy", .submitClick,
     .response edOkResp, .setEmotion "", .submitClick]).1

/-- C6 counterexample: a reachable EmotionDetector state in which the
stale success payload and a (validation) error message are visible
together — the analyze handler checks its preconditions before clearing
the previous result, so the prior payload stays on screen next to the
error. -/
theorem error_clears_result_counterexample :
    EDshowsResult edStale = true ∧
    EDshowsError edStale = true ∧
    edStale.result.isSome = true ∧
    edStale.error = "Upload video and enter intended emotion" := by
  exact ⟨rfl, rfl, rfl, rfl⟩

/-- C6 (amended).  In the ScriptTransformer and VideoAnalyzer flows the
claim holds as an invariant: in no reachable state are a displayed
success payload and an error message visible together.  In the
EmotionDetector flow a submission that passes local validation still
clears the result before (and through) a failed response — but a
validation error raised with a stale result present is displayed
alongside it (see the counterexample). -/
theorem error_clears_result_amended :
    (∀ s : STState, ReachST s → ¬(STshowsResult s = true ∧ STshowsError s = true)) ∧
    (∀ s : VAState, ReachVA s → ¬(VAshowsResult s = true ∧ VAshowsError s = true)) ∧
    (∀ (s : EDState) (r : HttpResp EmotionJson), ReachED s → s.loading = true →
      r.ok = false →
      (EDstep s (.response r)).1.result = none ∧
      (EDstep s (.response r)).1.error ≠ "") := by
  refine ⟨?_, ?_, ?_⟩
  · intro s hr hc
    obtain ⟨hres, herr⟩ := hc
    obtain ⟨h1, h2, h3⟩ := reachST_inv s hr
    have ht : truthyO s.result = true := by
      simp [STshowsResult, Bool.and_eq_true] at hres
      exact hres.2
    have he : s.error = "" := h3 ht
    simp [STshowsError, he] at herr
  · intro s hr hc
    obtain ⟨hres, herr⟩ := hc
    obtain ⟨h1, h2, h3, h4⟩ := reachVA_inv s hr
    have ht : s.result.isSome = true := by
      simp [VAshowsResult, Bool.and_eq_true] at hres
      exact hres.1
    have he : s.error = "" := h4 ht
    simp [VAshowsError, he] at herr
  · intro s r hr hl hok
    obtain ⟨h1, h2⟩ := reachED_inv s hr
    have hres : s.result = none := h2 hl
    have hif : s.inFlight = 1 := by rw [hl] at h1; simpa using h1
    have h0 : (s.inFlight == 0) = false := by simp [hif]
    cases hj : r.json with
    | none =>
      have hstep : EDstep s (.response r) =
          ({ s with loading := false, inFlight := s.inFlight - 1,
                    error := jsErrMsg r.parseMsg }, []) := by
        simp [EDstep, h0, hj]
      rw [hstep]
      exact ⟨hres, jsErrMsg_ne_empty r.parseMsg⟩
    | some d =>
      have hstep : EDstep s (.response r) =
          ({ s with loading := false, inFlight := s.inFlight - 1,
                    error := jsErrMsg (jsOrS d.detail "Server error") }, []) := by
        simp [EDstep, h0, hj, hok]
      rw [hstep]
      exact ⟨hres, jsErrMsg_ne_empty _⟩

/-- Witness for C6 (amended) at the initial page states and a concrete
pending EmotionDetector state receiving a failing response. -/
theorem error_clears_result_witness :
    ¬(STshowsResult initST = true ∧ STshowsError initST = true) ∧
    ¬(VAshowsResult initVA = true ∧ VAshowsError initVA = true) ∧
    ((EDstep edPending (.response edFailResp)).1.result = none ∧
     (EDstep edPending (.response edFailResp)).1.error ≠ "") := by
  have h := error_clears_result_amended
  exact ⟨h.1 initST ⟨[], rfl⟩,
         h.2.1 initVA ⟨[], rfl⟩,
         h.2.2 edPending edFailResp
           ⟨[.fileSelected (some vidFile), .setEmotion "joy", .submitClick], rfl⟩ rfl rfl⟩

/-- ScriptTransformer state with genre " Noir " (non-blank, with
surrounding spaces) and draft text "x". -/
def stNoir : STState := (runStep STstep initST [.setGenre " Noir ", .setText "x"]).1

/-- C7 counterexample: with the non-blank genre " Noir ", the request
body carries the trimmed string "Noir", not the entered genre string. -/
theorem fallback_genre_counterexample :
    stNoir.genre = " Noir " ∧
    jsTrim stNoir.genre ≠ "" ∧
    (STstep stNoir .submitClick).2 = [.net (.scriptJson "x" "Noir")] ∧
    ("Noir" : String) ≠ " Noir " := by
  exact ⟨rfl, by decide, rfl, by decide⟩

/-- C7 (amended).  For every enabled ScriptTransformer submit, the
request body genre field equals the fallback label "Screenplay" when the
entered genre is empty or all whitespace, and otherwise equals the
entered genre trimmed of surrounding whitespace. -/
theorem fallback_genre_amended :
    ∀ s : STState, s.loading = false → s.text ≠ "" → jsTrim s.text ≠ "" →
      (STstep s .submitClick).2 =
        [.net (.scriptJson s.text (jsOrSS (jsTrim s.genre) "Screenplay"))] ∧
      jsOrSS (jsTrim s.genre) "Screenplay" =
        (if jsTrim s.genre = "" then "Screenplay" else jsTrim s.genre) := by
  intro s hl ht htr
  constructor
  · have ht' : (s.text == "") = false := by simp [ht]
    have htr' : (jsTrim s.text == "") = false := by simp [htr]
    have hstep : STstep s .submitClick =
        ({ s with loading := true, error := "", result := none,
                  inFlight := s.inFlight + 1 },
         [.net (.scriptJson s.text (jsOrSS (jsTrim s.genre) "Screenplay"))]) := by
      simp [STstep, hl, ht', htr']
    rw [hstep]
  · rfl

/-- ScriptTransformer state with an all-whitespace genre and text "x". -/
def stBlankGenre : STState := (runStep STstep initST [.setGenre "   ", .setText "x"]).1

/-- Witness for C7 (amended) at a state with an all-whitespace genre:
the genre sent is "Screenplay". -/
theorem fallback_genre_witness :
    (STstep stBlankGenre .submitClick).2 =
      [.net (.scriptJson stBlankGenre.text (jsOrSS (jsTrim stBlankGenre.genre) "Screenplay"))] ∧
    jsOrSS (jsTrim stBlankGenre.genre) "Screenplay" =
      (if jsTrim stBlankGenre.genre = "" then "Screenplay" else jsTrim stBlankGenre.genre) :=
  fallback_genre_amended stBlankGenre rfl (by decide) (by decide)

/-- ScriptWriter state after changing the genre and clicking Reset. -/
def swAfterReset : SWState := (runStep SWstep initSW [.setGenre "Comedy", .resetClick]).1

/-- C8 counterexample: ScriptWriter Reset does not return the target
genre label to its initial value — after selecting "Comedy" and
resetting, the genre is still "Comedy", not the initial "Drama". -/
theorem reset_counterexample :
    swAfterReset.genre = "Comedy" ∧
    initSW.genre = "Drama" ∧
    swAfterReset.genre ≠ initSW.genre := by
  exact ⟨rfl, rfl, by decide⟩

/-- C8 (amended).  After any sequence of selections and edits, the reset
or clear action restores the draft text, selected file, result and
(where cleared) error to their initial values, and a held preview
resource is released exactly once — but the target label is only reset
by the EmotionDetector Clear: ScriptWriter Reset keeps the genre, and
the VideoAnalyzer clear button keeps the intended emotion and the error
message. -/
theorem reset_amended :
    ∀ (sSW : SWState) (sED : EDState) (sVA : VAState),
      ((SWstep sSW .resetClick).1.text = "" ∧ (SWstep sSW .resetClick).1.pdf = none ∧
       (SWstep sSW .resetClick).1.out = none ∧ (SWstep sSW .resetClick).1.err = "" ∧
       (SWstep sSW .resetClick).1.genre = sSW.genre ∧ (SWstep sSW .resetClick).2 = []) ∧
      (sED.src.isSome = sED.file.isSome →
        ((EDstep sED .clearClick).1.file = none ∧ (EDstep sED .clearClick).1.src = none ∧
         (EDstep sED .clearClick).1.emotion = "" ∧ (EDstep sED .clearClick).1.result = none ∧
         (EDstep sED .clearClick).1.error = "" ∧
         (EDstep sED .clearClick).2 = cleanupEffs sED.src ∧
         EDunmountEffs (EDstep sED .clearClick).1 = [] ∧
         (EDstep (EDstep sED .clearClick).1 .clearClick).2 = [])) ∧
      ((VAstep sVA .clearClick).1.file = none ∧ (VAstep sVA .clearClick).1.preview = none ∧
       (VAstep sVA .clearClick).1.result = none ∧
       (VAstep sVA .clearClick).1.intendedEmotion = sVA.intendedEmotion ∧
       (VAstep sVA .clearClick).1.error = sVA.error ∧
       (VAstep sVA .clearClick).2 = cleanupEffs sVA.preview ∧
       VAunmountEffs (VAstep sVA .clearClick).1 = [] ∧
       (VAstep (VAstep sVA .clearClick).1 .clearClick).2 = []) := by
  intro sSW sED sVA
  refine ⟨⟨rfl, rfl, rfl, rfl, rfl, rfl⟩, ?_, ⟨rfl, rfl, rfl, rfl, rfl, rfl, rfl, rfl⟩⟩
  intro hEq
  cases hf : sED.file with
  | some g =>
    have hstep : EDstep sED .clearClick =
        ({ sED with file := none, src := none, emotion := "", result := none, error := "" },
         cleanupEffs sED.src) := by
      simp [EDstep, hf]
    rw [hstep]
    exact ⟨rfl, rfl, rfl, rfl, rfl, rfl, rfl, rfl⟩
  | none =>
    have hsrc : sED.src = none := by
      rw [hf] at hEq
      simp at hEq
      exact hEq
    have hstep : EDstep sED .clearClick =
        ({ sED with file := none, src := none, emotion := "", result := none, error := "" },
         []) := by
      simp [EDstep, hf]
    rw [hstep, hsrc]
    exact ⟨rfl, rfl, rfl, rfl, rfl, rfl, rfl, rfl⟩

/-- Witness for C8 (amended) at a state holding a selected video with a
live preview. -/
theorem reset_witness :
    (EDstep edSelected .clearClick).1.emotion = "" ∧
    (EDstep edSelected .clearClick).2 = cleanupEffs edSelected.src ∧
    EDunmountEffs (EDstep edSelected .clearClick).1 = [] := by
  have h := (reset_amended initSW edSelected initVA).2.1 rfl
  exact ⟨h.2.2.1, h.2.2.2.2.2.1, h.2.2.2.2.2.2.1⟩

/-- A payload whose structured-script field is present but empty, with a
plain-text script present. -/
def dEmptyStructured : ScriptJson := { structured_script := some "", final_script := some "B" }

/-- C9 counterexample: with structured_script present (but empty), the
rendered script is the final_script value "B", not the present
structured_script field — the fallback is driven by JS truthiness, not
by field presence. -/
theorem render_fallback_counterexample :
    dEmptyStructured.structured_script = some "" ∧
    renderScript (some dEmptyStructured) = "B" ∧
    ("B" : String) ≠ "" := by
  exact ⟨rfl, rfl, by decide⟩

/-- A payload carrying only a structured script. -/
def dStructuredOnly : ScriptJson := { structured_script := some "INT. CAFE - DAY" }

/-- A payload carrying only a plain-text script. -/
def dFinalOnly : ScriptJson := { final_script := some "B" }

/-- A payload with no script field at all. -/
def dEmptyBoth : ScriptJson := {}

/-- A successful response whose body has no script field. -/
def stOkEmpty : HttpResp ScriptJson := ⟨true, some dEmptyBoth, ""⟩

/-- C9 (amended).  The rendered script equals the structured-script
field when present and non-empty, otherwise the plain-text final_script
field when present and non-empty; otherwise ScriptWriter renders a raw
dump of the whole payload, while ScriptTransformer stores no result at
all and renders its empty-state placeholder rather than a dump. -/
theorem render_fallback_amended :
    ∀ (d : ScriptJson) (v : String) (sST : STState) (r : HttpResp ScriptJson),
      (d.structured_script = some v → v ≠ "" → renderScript (some d) = v) ∧
      ((d.structured_script = none ∨ d.structured_script = some "") →
        d.final_script = some v → v ≠ "" → renderScript (some d) = v) ∧
      ((d.structured_script = none ∨ d.structured_script = some "") →
        (d.final_script = none ∨ d.final_script = some "") →
        renderScript (some d) = stringifyScript d) ∧
      (sST.inFlight = 1 → r.ok = true → r.json = some d →
        (d.structured_script = none ∨ d.structured_script = some "") →
        (d.final_script = none ∨ d.final_script = some "") →
        truthyO (STstep sST (.response r)).1.result = false ∧
        renderSTOutput (STstep sST (.response r)).1 = "Generated script will appear here") := by
  intro d v sST r
  refine ⟨?_, ?_, ?_, ?_⟩
  · intro hs hv
    simp [renderScript, hs, jsOrS, hv]
  · intro hs hfin hv
    rcases hs with hs | hs <;> simp [renderScript, hs, hfin, jsOrS, hv]
  · intro hs hfin
    rcases hs with hs | hs <;> rcases hfin with hfin | hfin <;>
      simp [renderScript, hs, hfin, jsOrS]
  · intro hif hok hj hs hfin
    have h0 : (sST.inFlight == 0) = false := by simp [hif]
    have hstep : STstep sST (.response r) =
        ({ sST with loading := false, inFlight := sST.inFlight - 1,
                    result := jsOrO d.structured_script d.final_script }, []) := by
      simp [STstep, h0, hok, hj]
    rw [hstep]
    have htr : truthyO (jsOrO d.structured_script d.final_script) = false := by
      rcases hs with hs | hs <;> rcases hfin with hfin | hfin <;>
        simp [jsOrO, hs, hfin, truthyO]
    refine ⟨htr, ?_⟩
    simp [renderSTOutput, htr]

/-- Witness for C9 (amended), exercising all four branches at concrete
payloads. -/
theorem render_fallback_witness :
    renderScript (some dStructuredOnly) = "INT. CAFE - DAY" ∧
    renderScript (some dFinalOnly) = "B" ∧
    renderScript (some dEmptyBoth) = stringifyScript dEmptyBoth ∧
    renderSTOutput (STstep stPending (.response stOkEmpty)).1 =
      "Generated script will appear here" := by
  refine ⟨(render_fallback_amended dStructuredOnly "INT. CAFE - DAY" initST stOkEmpty).1
            rfl (by decide),
          (render_fallback_amended dFinalOnly "B" initST stOkEmpty).2.1
            (Or.inl rfl) rfl (by decide),
          (render_fallback_amended dEmptyBoth "x" initST stOkEmpty).2.2.1
            (Or.inl rfl) (Or.inl rfl),
          ((render_fallback_amended dEmptyBoth "x" stPending stOkEmpty).2.2.2
            rfl rfl rfl (Or.inl rfl) (Or.inl rfl)).2⟩

/-- C10.  In the ScriptWriter flow, whenever a PDF is selected at submit
time — even with non-empty pasted text also present — the document path
takes precedence: the single request is the multipart document request
carrying exactly the file and the genre (the pasted text is not part of
the request), posted to the generate-script-from-pdf endpoint. -/
theorem pdf_precedence :
    ∀ (s : SWState) (f : JSFile), s.loading = false → s.pdf = some f → s.text ≠ "" →
      (SWstep s .submitClick).2 = [.net (.scriptPdf f s.genre)] ∧
      (Request.scriptPdf f s.genre).endpoint = SCRIPT_API ++ "/generate-script-from-pdf/" := by
  intro s f hl hf ht
  constructor
  · have hv : (s.pdf.isNone && jsTrim s.text == "") = false := by simp [hf]
    have hstep : SWstep s .submitClick =
        ({ s with err := "", out := none, loading := true, inFlight := s.inFlight + 1 },
         [.net (.scriptPdf f s.genre)]) := by
      simp [SWstep, hl, hv, hf]
    rw [hstep]
  · rfl

/-- ScriptWriter state with both pasted text and a selected PDF. -/
def swBoth : SWState :=
  (runStep SWstep initSW [.setText "draft text", .pdfSelected (some pdfFile)]).1

/-- Witness for C10 at a state holding both pasted text and a PDF. -/
theorem pdf_precedence_witness :
    (SWstep swBoth .submitClick).2 = [.net (.scriptPdf pdfFile swBoth.genre)] ∧
    (Request.scriptPdf pdfFile swBoth.genre).endpoint =
      SCRIPT_API ++ "/generate-script-from-pdf/" :=
  pdf_precedence swBoth pdfFile rfl rfl (by decide)
